import Mathlib

/-!
A shallow embedding of the streaming gateway (`smart_tv_telegram/http.py`)
and of the playback-session machinery (`castbot/video.py`), together with
theorems checking the specification's claims against it.

Machine conventions: Python byte strings become `List Nat`, Python `str`
becomes `String` or `List Char`, Python sets become `Finset Nat`, Python
dicts become association lists, and the gateway's unbounded `while` loop is
fuelled with enough fuel for every run the theorems consider.
-/

namespace SmartTv

/-- Modelled from the spec: the token codec `tools.serialize_token` is not
under `src/`. The spec (§4.1) only requires a total, deterministic,
collision-free pairing of `(message_id, per-session token part)` into one
integer, so we use the standard pairing function. -/
def serialize_token (message_id token_part : Nat) : Nat :=
  Nat.pair message_id token_part

/-- A `Range` header already split into its numeric fields: the requested
start byte and the optional inclusive end byte. `wellFormed := false` stands
for a header the tokenizer cannot parse at all. -/
structure RawRange where
  start : Nat
  stopAt : Option Nat
  wellFormed : Bool
deriving DecidableEq, Repr

/-- Modelled from the spec: the range tokenizer `tools.parse_http_range` is
not under `src/`. Per the spec (§4.2, §8) it returns the largest multiple of
`block_size` that is ≤ the requested start, the skip count
`start - fetch_offset`, and the exclusive end (`E + 1` when an explicit
inclusive end `E` is present, otherwise `none`, meaning end of content), and
it fails on an unparsable header. Like the code's
`parse_http_range(range_header, block_size)` it does not see the content
size; the gateway bounds the result afterwards. -/
def parse_http_range (r : RawRange) (block_size : Nat) :
    Option (Nat × Nat × Option Nat) :=
  if r.wellFormed then
    some (r.start / block_size * block_size, r.start % block_size,
      r.stopAt.map (· + 1))
  else
    none

/-- Modelled from the spec: the media backend's
`get_block(message, offset, block_size)` (in `mtproto.py`, not under `src/`)
returns the block of up to `block_size` media bytes starting at `offset`
(§4.3: "fetch exactly one `block_size`-sized (or shorter, at end-of-content)
block from the media backend at the cursor"). -/
def get_block (content : List Nat) (offset block_size : Nat) : List Nat :=
  (content.drop offset).take block_size

/-- The configuration fields the gateway reads. -/
structure Config where
  block_size : Nat
  request_gone_timeout : Nat
deriving DecidableEq, Repr

/-- A `pyrogram` `Document`; the gateway reads its `size` and `id`. -/
structure Document where
  size : Nat
  id : Nat
deriving DecidableEq, Repr

/-- `MessageMediaDocument`; its `document` field is `none` when the object
fails the `isinstance(…, Document)` check. -/
structure MessageMedia where
  document : Option Document
deriving DecidableEq, Repr

/-- The message resolved by `get_message`: `media` is `none` when the media
fails the `isinstance(…, MessageMediaDocument)` check; `content` is the
underlying media bytes that `get_block` serves. -/
structure TgMessage where
  media : Option MessageMedia
  from_id : Nat
  content : List Nat
deriving DecidableEq, Repr

/-- One run of the block-fetch loop of `Http._stream_handler` (`http.py`
lines 188-208), fuelled. `closing i` tells whether the client transport is
absent or closing when iteration `i` reaches that check. The result lists
the pairs `(pre-trim block offset, bytes written)` in iteration order. -/
def streamTrace (content : List Nat) (block_size : Nat) (closing : Nat → Bool) :
    Nat → Nat → Nat → Nat → Nat → List (Nat × List Nat)
  | 0, _, _, _, _ => []
  | fuel + 1, iter, offset, data_to_skip, max_size =>
    if offset < max_size then
      let block := get_block content offset block_size
      let new_offset := offset + block.length
      let block1 := if data_to_skip ≠ 0 then block.drop data_to_skip else block
      let block2 :=
        if max_size < new_offset then
          block1.take (block1.length - (new_offset - max_size))
        else block1
      if closing iter then []
      else
        (offset, block2) ::
          streamTrace content block_size closing fuel (iter + 1) new_offset 0 max_size
    else []

/-- The same loop, threading the two side-effect channels the code appends
to in program order: bytes written to the client (`stream.write`) and block
offsets recorded by `_feed_downloaded_blocks` (`http.py` lines 206-207, 95-97;
the write strictly precedes the record). -/
def streamGo (content : List Nat) (block_size : Nat) (closing : Nat → Bool) :
    Nat → Nat → Nat → Nat → Nat → List Nat → List Nat → List Nat × List Nat
  | 0, _, _, _, _, written, downloaded => (written, downloaded)
  | fuel + 1, iter, offset, data_to_skip, max_size, written, downloaded =>
    if offset < max_size then
      let block := get_block content offset block_size
      let new_offset := offset + block.length
      let block1 := if data_to_skip ≠ 0 then block.drop data_to_skip else block
      let block2 :=
        if max_size < new_offset then
          block1.take (block1.length - (new_offset - max_size))
        else block1
      if closing iter then (written, downloaded)
      else
        streamGo content block_size closing fuel (iter + 1) new_offset 0 max_size
          (written ++ block2) (downloaded ++ [offset])
    else (written, downloaded)

/-- The bytes a trace wrote to the client, in order. -/
def writtenOf (t : List (Nat × List Nat)) : List Nat :=
  (t.map Prod.snd).flatten

/-- A transport that is never gone nor closing. -/
def neverClosing : Nat → Bool := fun _ => false

/-- A transport that is gone or closing from iteration `k` on. -/
def closesAt (k : Nat) : Nat → Bool := fun i => decide (k ≤ i)

/-- Everything a stream request produces that the claims mention. -/
structure StreamOutcome where
  status : Nat
  consultedBackend : Bool
  contentRange : Option String
  contentLength : Option String
  written : List Nat
  downloaded : List Nat
deriving DecidableEq, Repr

/-- An early-return `Response(status=...)` of `_stream_handler`: no body is
streamed and nothing is recorded. -/
def errOutcome (status : Nat) (consulted : Bool) : StreamOutcome :=
  ⟨status, consulted, none, none, [], []⟩

/-- The successful tail of `_stream_handler` (`http.py` lines 175-210):
status choice, the range headers written by `_write_http_range_headers`
(`Content-Range: bytes {read_after}-{max_size}/{size}` and
`Content-Length: {size}`), and the block-fetch loop. -/
def stream_success (cfg : Config) (closing : Nat → Bool) (content : List Nat)
    (size offset data_to_skip max_size : Nat) : StreamOutcome :=
  let read_after := offset + data_to_skip
  let t := streamGo content cfg.block_size closing (max_size + 1) 0 offset
    data_to_skip max_size [] []
  { status := if read_after ≠ 0 ∨ max_size ≠ size then 206 else 200
    consultedBackend := true
    contentRange := some ("bytes " ++ toString read_after ++ "-"
      ++ toString max_size ++ "/" ++ toString size)
    contentLength := some (toString size)
    written := t.1
    downloaded := t.2 }

/-- `Http._stream_handler` from the point where `offset`, `data_to_skip` and
`max_size` are known (`http.py` lines 149-210): the skip-bound check, media
resolution (404 on lookup failure or non-document media), the bounds checks
on the requested window, then the streaming tail. -/
def stream_handler_after_parse (cfg : Config) (backend : Nat → Option TgMessage)
    (closing : Nat → Bool) (message_id : Nat)
    (offset data_to_skip : Nat) (max_size? : Option Nat) : StreamOutcome :=
  if cfg.block_size < data_to_skip then errOutcome 500 false
  else
    match backend message_id with
    | none => errOutcome 404 true
    | some msg =>
      match msg.media with
      | none => errOutcome 404 true
      | some media =>
        match media.document with
        | none => errOutcome 404 true
        | some doc =>
          if doc.size < offset + data_to_skip then errOutcome 400 true
          else if max_size?.any fun m => decide (doc.size < m) then
            errOutcome 400 true
          else
            stream_success cfg closing msg.content doc.size offset data_to_skip
              (max_size?.getD doc.size)

/-- Python's `str.isdigit` on the strings this handler sees: nonempty and
all characters decimal digits. -/
def isDigits (s : String) : Bool :=
  s.length ≠ 0 && s.toList.all Char.isDigit

/-- Python `int(s)` on an all-digits string, as applied to the two path
segments after their `isdigit` checks. -/
def toNatDigits (s : String) : Nat :=
  s.toList.foldl (fun acc c => acc * 10 + (c.toNat - 48)) 0

/-- `Http._stream_handler` (`http.py` lines 115-210): path validation (401),
token recomputation and the authorization check against the gateway's
`_tokens` set (403), `Range` parsing (400 on a malformed header, with the
no-header defaults `offset = 0`, `data_to_skip = False`, `max_size = None`),
then the media-resolution and streaming path. -/
def stream_handler (cfg : Config) (tokens : Finset Nat)
    (backend : Nat → Option TgMessage) (closing : Nat → Bool)
    (message_id_str token_str : String) (range_header : Option RawRange) :
    StreamOutcome :=
  if ¬ isDigits message_id_str then errOutcome 401 false
  else if ¬ isDigits token_str then errOutcome 401 false
  else
    let token := toNatDigits token_str
    let message_id := toNatDigits message_id_str
    let local_token := serialize_token message_id token
    if local_token ∉ tokens then errOutcome 403 false
    else
      match range_header with
      | none => stream_handler_after_parse cfg backend closing message_id 0 0 none
      | some r =>
        match parse_http_range r cfg.block_size with
        | none => errOutcome 400 false
        | some (offset, data_to_skip, max_size?) =>
          stream_handler_after_parse cfg backend closing message_id offset
            data_to_skip max_size?

/-- A concrete media backend for evaluating the theorems: message 7 is a
document of 1000 bytes (byte `i` holds value `i`) owned by chat 11. -/
def sampleBackend : Nat → Option TgMessage := fun i =>
  if i = 7 then some ⟨some ⟨some ⟨1000, 3⟩⟩, 11, List.range 1000⟩ else none

/-- The block one loop iteration writes: the fetched block with the leading
`data_to_skip` bytes dropped and the tail past `max_size` truncated. -/
def chunk (content : List Nat) (block_size offset data_to_skip max_size : Nat) :
    List Nat :=
  let block := get_block content offset block_size
  let new_offset := offset + block.length
  let block1 := if data_to_skip ≠ 0 then block.drop data_to_skip else block
  if max_size < new_offset then
    block1.take (block1.length - (new_offset - max_size))
  else block1

/-- The reply `_timeout_handler` sends through `mtproto.reply_message`; the
code formats `percent_remaining` into the text
`"download closed, {…:0.2f}% remains"`, so the notification is modelled by
the number it carries. -/
structure Notification where
  message_id : Nat
  chat_id : Nat
  percent_remaining : ℚ
deriving DecidableEq

/-- The gateway's per-token mutable state: `_tokens`, `_downloaded_blocks`
and `_stream_debounce` (a debouncer instance carries no state the claims
mention, so the debouncer map is modelled by its key list). -/
structure GatewayState where
  tokens : Finset Nat
  downloaded_blocks : List (Nat × Finset Nat)
  stream_debounce : List Nat
deriving DecidableEq

/-- Dictionary lookup in the `_downloaded_blocks` association list. -/
def lookupBlocks (m : List (Nat × Finset Nat)) (k : Nat) : Option (Finset Nat) :=
  (m.find? fun p => decide (p.1 = k)).map Prod.snd

/-- Dictionary deletion in the `_downloaded_blocks` association list. -/
def eraseBlocks (m : List (Nat × Finset Nat)) (k : Nat) : List (Nat × Finset Nat) :=
  m.filter fun p => decide (p.1 ≠ k)

/-- `Http._timeout_handler` (`http.py` lines 99-113). Returns `none` where
the Python code would raise (a `KeyError` from the dict lookups or
`set.remove`, or a `ZeroDivisionError` when the document holds fewer than
`block_size` bytes); otherwise the updated gateway state and the reply sent
to the originating chat. The Python computation
`(blocks - len(downloaded)) / blocks * 100` uses float division; it is
modelled exactly over `ℚ`. -/
def timeout_handler (cfg : Config) (st : GatewayState)
    (message_id chat_id local_token size : Nat) :
    Option (GatewayState × Notification) :=
  let blocks : Nat := size / cfg.block_size
  match lookupBlocks st.downloaded_blocks local_token with
  | none => none
  | some downloaded =>
    if blocks = 0 then none
    else if local_token ∉ st.tokens then none
    else if local_token ∉ st.stream_debounce then none
    else
      let remain_blocks : ℚ := (blocks : ℚ) - (downloaded.card : ℚ)
      let remain_blocks_percentual : ℚ := remain_blocks / (blocks : ℚ) * 100
      some ({ tokens := st.tokens.erase local_token
              downloaded_blocks := eraseBlocks st.downloaded_blocks local_token
              stream_debounce :=
                st.stream_debounce.filter fun t => decide (t ≠ local_token) },
            ⟨message_id, chat_id, remain_blocks_percentual⟩)

end SmartTv

namespace Castbot

/-- Python `html.escape` (with its default `quote=True`) on one character, as
`PlayingVideo._gen_device_str` applies it. -/
def escapeChar (c : Char) : List Char :=
  if c = '&' then "&amp;".toList
  else if c = '<' then "&lt;".toList
  else if c = '>' then "&gt;".toList
  else if c = '"' then "&quot;".toList
  else if c = Char.ofNat 39 then "&#x27;".toList
  else [c]

/-- Python `html.escape` with `quote=True`. -/
def html_escape (s : List Char) : List Char :=
  s.flatMap escapeChar

/-- `PlayingVideo._gen_device_str` (`video.py` lines 82-86): the device half
of every control text; `none` stands for an unbound device. -/
def gen_device_str (device_name : Option (List Char)) : List Char :=
  "on device <code>".toList ++
    (match device_name with
     | some n => html_escape n
     | none => "NONE".toList) ++
    "</code>".toList

/-- Does `pat` match at the head of `txt`? -/
def headMatch : List Char → List Char → Bool
  | [], _ => true
  | _ :: _, [] => false
  | p :: ps, t :: ts => p == t && headMatch ps ts

/-- The suffix of `txt` right after the first occurrence of `pat`, if any:
the remainder `re.search` captures from. -/
def afterFirst (pat : List Char) : List Char → Option (List Char)
  | [] => if headMatch pat [] then some [] else none
  | t :: ts =>
    if headMatch pat (t :: ts) then some (List.drop pat.length (t :: ts))
    else afterFirst pat ts

/-- `PlayingVideo.parse_device_str` (`video.py` lines 88-93):
`re.search("on device ([^,]*)", text)` captures everything after the first
`"on device "` up to (excluding) the first comma; `None` when the pattern
does not occur. -/
def parse_device_str (text : List Char) : Option (List Char) :=
  (afterFirst "on device ".toList text).map (List.takeWhile fun c => c != ',')

/-- `PlayingVideo._gen_message_str` (`video.py` lines 95-96). -/
def gen_message_str (video_id : Nat) : List Char :=
  ("for file <code>" ++ toString video_id ++ "</code>").toList

/-- The control text `send_stopped_control_message` renders when
`remaining = None` (`video.py` line 107). -/
def stopped_text (video_id : Nat) (device_name : Option (List Char)) : List Char :=
  "Controller ".toList ++ gen_message_str video_id ++ " ".toList ++
    gen_device_str device_name

/-- The two button labels of the stopped control surface (`video.py` lines
102-105); button payloads do not bear on the claims. -/
def stopped_buttons : List (List Char) :=
  ["DEVICE".toList, "PLAY".toList]

/-- The control-surface message a session holds: its rendered text and
buttons; `none` before the first render. -/
structure ControlState where
  control_message : Option (List Char × List (List Char))
deriving DecidableEq

/-- Modelled from the spec: the chat backend's `edit_text` (pyrogram, an
external collaborator) raises `MessageNotModified` when the new content
equals the currently rendered one and otherwise applies the edit. -/
inductive EditResult
  | ok
  | notModified
deriving DecidableEq

/-- The chat backend's edit, per the contract above. -/
def edit_text (cur : List Char × List (List Char)) (text : List Char)
    (buttons : List (List Char)) : EditResult × (List Char × List (List Char)) :=
  if cur = (text, buttons) then (EditResult.notModified, cur)
  else (EditResult.ok, (text, buttons))

/-- `PlayingVideo.create_or_update_control_message` (`video.py` lines
133-140): when a control message exists, edit it in place, catching
`MessageNotModified` (`except MessageNotModified: pass`); otherwise reply to
the video message, creating the control message. The `Bool` is whether an
exception escaped the call. -/
def create_or_update_control_message (st : ControlState) (text : List Char)
    (buttons : List (List Char)) : ControlState × Bool :=
  match st.control_message with
  | some cur =>
    match edit_text cur text buttons with
    | (EditResult.notModified, c) => (⟨some c⟩, false)
    | (EditResult.ok, c) => (⟨some c⟩, false)
  | none => (⟨some (text, buttons)⟩, false)

/-- `n` sequential invocations of the render with the same text and buttons;
the `Bool` is whether any invocation raised. -/
def renderN (text : List Char) (buttons : List (List Char)) :
    Nat → ControlState → ControlState × Bool
  | 0, st => (st, false)
  | n + 1, st =>
    let r := create_or_update_control_message st text buttons
    let rest := renderN text buttons n r.1
    (rest.1, r.2 || rest.2)

/-- The device binding of a session, as far as `stop()` observes it:
its display name and whether its `stop()` coroutine raises. -/
structure DeviceModel where
  name : List Char
  stop_fails : Bool
deriving DecidableEq

/-- The observable steps of `PlayingVideo.stop`, in program order. -/
inductive StopEvent
  | device_stop_called
  | device_stop_failed_logged
  | rendered_stopped (text : List Char) (buttons : List (List Char))
deriving DecidableEq

/-- The exceptions `PlayingVideo` raises that the claims mention. -/
inductive PvError
  | noDeviceException
  | actionNotSupportedException
deriving DecidableEq

/-- `PlayingVideo.stop` (`video.py` lines 157-167): a best-effort device
stop whose failure is caught and logged (`except Exception: logging.…`),
then `send_stopped_control_message()` (which renders `stopped_text` with the
DEVICE/PLAY buttons), then `raise NoDeviceException` when no device is
bound. Returns the events in program order, the control-surface state after
the call, and the exception that escaped, if any. -/
def PlayingVideo_stop (device : Option DeviceModel) (st : ControlState)
    (video_id : Nat) : List StopEvent × ControlState × Option PvError :=
  let devEvents :=
    match device with
    | some d =>
      if d.stop_fails then
        [StopEvent.device_stop_called, StopEvent.device_stop_failed_logged]
      else [StopEvent.device_stop_called]
    | none => []
  let text := stopped_text video_id (device.map DeviceModel.name)
  let render := create_or_update_control_message st text stopped_buttons
  let events := devEvents ++ [StopEvent.rendered_stopped text stopped_buttons]
  match device with
  | none => (events, render.1, some PvError.noDeviceException)
  | some _ => (events, render.1, none)

end Castbot

namespace SmartTv

lemma streamTrace_nil {content : List Nat} {bs : Nat} {cl : Nat → Bool}
    {fuel iter offset skip ms : Nat} (h : ms ≤ offset) :
    streamTrace content bs cl fuel iter offset skip ms = [] := by
  cases fuel with
  | zero => rfl
  | succ fuel => simp [streamTrace, Nat.not_lt.2 h]

lemma streamTrace_cons {content : List Nat} {bs : Nat} {cl : Nat → Bool}
    {fuel iter offset skip ms : Nat} (h : offset < ms) (hcl : cl iter = false) :
    streamTrace content bs cl (fuel + 1) iter offset skip ms
      = (offset, chunk content bs offset skip ms) ::
          streamTrace content bs cl fuel (iter + 1)
            (offset + (get_block content offset bs).length) 0 ms := by
  simp [streamTrace, chunk, h, hcl]

lemma writtenOf_nil : writtenOf [] = [] := rfl

lemma writtenOf_cons {o : Nat} {b : List Nat} {t : List (Nat × List Nat)} :
    writtenOf ((o, b) :: t) = b ++ writtenOf t := by
  simp [writtenOf]

lemma get_block_length {content : List Nat} {offset bs : Nat} :
    (get_block content offset bs).length = min bs (content.length - offset) := by
  simp [get_block]

lemma chunk_eq {content : List Nat} {bs offset skip ms : Nat}
    (hlen : ms ≤ content.length) (hsb : skip ≤ bs) (hos : offset + skip ≤ ms)
    (hlt : offset < ms) :
    chunk content bs offset skip ms
      = (content.drop (offset + skip)).take (min ms (offset + bs) - (offset + skip)) := by
  have hb1 : (if skip ≠ 0 then (get_block content offset bs).drop skip
        else get_block content offset bs)
      = (content.drop (offset + skip)).take (bs - skip) := by
    rcases Nat.eq_zero_or_pos skip with h0 | h0
    · subst h0
      simp [get_block]
    · rw [if_pos (by omega)]
      rw [get_block, List.drop_take, List.drop_drop]
  have hL := @get_block_length content offset bs
  have hxlen : (content.drop (offset + skip)).length
      = content.length - (offset + skip) := List.length_drop _ _
  simp only [chunk]
  rw [hb1, hL]
  split
  · rw [List.take_take, List.take_eq_take, List.length_take, hxlen]
    omega
  · rw [List.take_eq_take, hxlen]
    omega

lemma writtenOf_streamTrace {content : List Nat} {bs : Nat} (hbs : 0 < bs) :
    ∀ fuel iter offset skip ms, ms ≤ content.length → skip ≤ bs →
      offset + skip ≤ ms → ms - offset < fuel →
      writtenOf (streamTrace content bs neverClosing fuel iter offset skip ms)
        = (content.drop (offset + skip)).take (ms - (offset + skip)) := by
  intro fuel
  induction fuel with
  | zero => intro iter offset skip ms _ _ _ h; omega
  | succ fuel ih =>
    intro iter offset skip ms hlen hsb hos hfuel
    by_cases hlt : offset < ms
    · rw [streamTrace_cons hlt rfl, writtenOf_cons, chunk_eq hlen hsb hos hlt]
      have hL := @get_block_length content offset bs
      by_cases hA : offset + (get_block content offset bs).length ≤ ms
      · have hL1 : 1 ≤ (get_block content offset bs).length := by omega
        rw [ih (iter + 1) (offset + (get_block content offset bs).length) 0 ms hlen
          (Nat.zero_le _) (by omega) (by omega)]
        simp only [Nat.add_zero]
        have hE : min ms (offset + bs) - (offset + skip)
            = (get_block content offset bs).length - skip := by omega
        have hsum : ms - (offset + skip)
            = ((get_block content offset bs).length - skip)
              + (ms - (offset + (get_block content offset bs).length)) := by omega
        rw [hE, hsum, List.take_add, List.drop_drop]
        have harg : offset + skip + ((get_block content offset bs).length - skip)
            = offset + (get_block content offset bs).length := by omega
        rw [harg]
      · rw [streamTrace_nil (show ms ≤ offset + (get_block content offset bs).length
          by omega), writtenOf_nil, List.append_nil]
        have hmin : min ms (offset + bs) = ms := by omega
        rw [hmin]
    · rw [streamTrace_nil (by omega), writtenOf_nil]
      have h0 : ms - (offset + skip) = 0 := by omega
      rw [h0, List.take_zero]

lemma streamTrace_fst_head {content : List Nat} {bs : Nat} {cl : Nat → Bool}
    {fuel iter offset skip ms : Nat} :
    ∀ p ∈ (streamTrace content bs cl fuel iter offset skip ms).head?, p.1 = offset := by
  cases fuel with
  | zero => simp [streamTrace]
  | succ fuel =>
    by_cases hlt : offset < ms
    · cases hcl : cl iter with
      | false =>
        rw [streamTrace_cons hlt hcl]
        simp
      | true => simp [streamTrace, hlt, hcl]
    · rw [streamTrace_nil (by omega)]
      simp

lemma streamTrace_chain' {content : List Nat} {bs : Nat} (hbs : 0 < bs)
    {cl : Nat → Bool} :
    ∀ fuel iter offset skip ms, ms ≤ content.length →
      List.Chain' (fun p q => p.1 < q.1)
        (streamTrace content bs cl fuel iter offset skip ms) := by
  intro fuel
  induction fuel with
  | zero => intro iter offset skip ms _; simp [streamTrace]
  | succ fuel ih =>
    intro iter offset skip ms hlen
    by_cases hlt : offset < ms
    · cases hcl : cl iter with
      | true => simp [streamTrace, hlt, hcl]
      | false =>
        rw [streamTrace_cons hlt hcl]
        refine List.chain'_cons'.2 ⟨?_, ih _ _ _ _ hlen⟩
        intro q hq
        have hq1 := streamTrace_fst_head q hq
        have hL := @get_block_length content offset bs
        show offset < q.1
        omega
    · rw [streamTrace_nil (by omega)]
      simp

lemma streamTrace_closesAt {content : List Nat} {bs : Nat} (k : Nat) :
    ∀ fuel iter offset skip ms,
      streamTrace content bs (closesAt k) fuel iter offset skip ms
        = (streamTrace content bs neverClosing fuel iter offset skip ms).take (k - iter) := by
  intro fuel
  induction fuel with
  | zero => intro iter offset skip ms; simp [streamTrace]
  | succ fuel ih =>
    intro iter offset skip ms
    by_cases hlt : offset < ms
    · by_cases hk : k ≤ iter
      · have hcl : closesAt k iter = true := by
          simp [closesAt]
          omega
        have h0 : k - iter = 0 := by omega
        rw [h0]
        simp [streamTrace, hlt, hcl]
      · have hcl : closesAt k iter = false := by
          simp [closesAt]
          omega
        rw [streamTrace_cons hlt hcl, streamTrace_cons hlt rfl]
        have h1 : k - iter = (k - (iter + 1)) + 1 := by omega
        rw [h1, List.take_succ_cons, ih]
    · rw [streamTrace_nil (by omega), streamTrace_nil (by omega)]
      simp

lemma after_parse_success {cfg : Config} {backend : Nat → Option TgMessage}
    {cl : Nat → Bool} {mid offset skip : Nat} {ms? : Option Nat}
    {msg : TgMessage} {media : MessageMedia} {doc : Document}
    (hmsg : backend mid = some msg) (hmedia : msg.media = some media)
    (hdoc : media.document = some doc)
    (hskip : skip ≤ cfg.block_size)
    (hra : offset + skip ≤ doc.size)
    (hms : ms?.getD doc.size ≤ doc.size) :
    stream_handler_after_parse cfg backend cl mid offset skip ms?
      = stream_success cfg cl msg.content doc.size offset skip (ms?.getD doc.size) := by
  have hany : (ms?.any fun m => decide (doc.size < m)) = false := by
    cases ms? with
    | none => rfl
    | some m =>
      simp only [Option.getD_some] at hms
      simp [Option.any]
      omega
  simp only [stream_handler_after_parse, hmsg, hmedia, hdoc]
  rw [if_neg (by omega), if_neg (by omega)]
  simp [hany]

lemma after_parse_status_ne_403 {cfg : Config} {backend : Nat → Option TgMessage}
    {cl : Nat → Bool} {mid offset skip : Nat} {ms? : Option Nat} :
    (stream_handler_after_parse cfg backend cl mid offset skip ms?).status ≠ 403 := by
  rw [stream_handler_after_parse]
  split
  · simp [errOutcome]
  · split
    · simp [errOutcome]
    · split
      · simp [errOutcome]
      · split
        · simp [errOutcome]
        · split
          · simp [errOutcome]
          · split
            · simp [errOutcome]
            · rw [stream_success]
              split <;> simp

lemma streamGo_eq {content : List Nat} {bs : Nat} {cl : Nat → Bool} :
    ∀ fuel iter offset skip ms w d,
      streamGo content bs cl fuel iter offset skip ms w d
        = (w ++ writtenOf (streamTrace content bs cl fuel iter offset skip ms),
           d ++ (streamTrace content bs cl fuel iter offset skip ms).map Prod.fst) := by
  intro fuel
  induction fuel with
  | zero => intro iter offset skip ms w d; simp [streamGo, streamTrace, writtenOf]
  | succ fuel ih =>
    intro iter offset skip ms w d
    by_cases hlt : offset < ms
    · cases hcl : cl iter with
      | true => simp [streamGo, streamTrace, hlt, hcl, writtenOf]
      | false =>
        rw [streamTrace_cons hlt hcl]
        simp only [streamGo, if_pos hlt, hcl, Bool.false_eq_true, if_false]
        rw [ih]
        simp [writtenOf_cons, chunk, List.append_assoc]
    · simp [streamGo, streamTrace, hlt, writtenOf]

/-- Claim C2: a stream request whose recomputed token is not in the
authorized set is answered 403 with the media backend never consulted,
whatever the backend holds; and when the token is authorized the handler
never answers 403, so token membership is the sole access-control check on
the stream path. -/
theorem stream_unauthorized_403 (cfg : Config) (tokens : Finset Nat)
    (backend : Nat → Option TgMessage) (closing : Nat → Bool)
    (mstr tstr : String) (range_header : Option RawRange)
    (hm : isDigits mstr = true) (ht : isDigits tstr = true) :
    (serialize_token (toNatDigits mstr) (toNatDigits tstr) ∉ tokens →
        stream_handler cfg tokens backend closing mstr tstr range_header
          = errOutcome 403 false)
      ∧ (serialize_token (toNatDigits mstr) (toNatDigits tstr) ∈ tokens →
        (stream_handler cfg tokens backend closing mstr tstr range_header).status
          ≠ 403) := by
  constructor
  · intro hout
    simp only [stream_handler, hm, ht]
    rw [if_neg (by simp), if_neg (by simp), if_pos hout]
  · intro hin
    simp only [stream_handler, hm, ht]
    rw [if_neg (by simp), if_neg (by simp), if_neg (not_not_intro hin)]
    cases range_header with
    | none => exact after_parse_status_ne_403
    | some r =>
      cases h : parse_http_range r cfg.block_size with
      | none => simp [h, errOutcome]
      | some v =>
        obtain ⟨offset, skip, ms?⟩ := v
        simp only [h]
        exact after_parse_status_ne_403

/-- Witness for C2: an unknown token on a request with numeric path parts is
answered 403 without the backend being consulted. -/
theorem stream_unauthorized_403_witness :
    stream_handler ⟨100, 0⟩ ∅ sampleBackend neverClosing "1" "2" none
      = errOutcome 403 false :=
  (stream_unauthorized_403 ⟨100, 0⟩ ∅ sampleBackend neverClosing "1" "2" none
    (by decide) (by decide)).1 (by decide)

/-- Counterexample for C5: with `block_size = 100` and a skip count of 101,
the gateway answers 500, not the claimed 400. -/
theorem skip_over_block_not_400 :
    (stream_handler_after_parse ⟨100, 0⟩ (fun _ => none) neverClosing 1 0 101
        none).status = 500
      ∧ (stream_handler_after_parse ⟨100, 0⟩ (fun _ => none) neverClosing 1 0 101
        none).status ≠ 400 := by
  constructor
  · rfl
  · decide

/-- Claim C5 (amended): a skip count greater than `block_size` is detected
before the media backend is consulted and before the fetch loop starts, and
is reported as HTTP 500 (an internal invariant violation), not 400: nothing
is written and no block is recorded. -/
theorem skip_over_block_500 (cfg : Config) (backend : Nat → Option TgMessage)
    (cl : Nat → Bool) (mid offset skip : Nat) (ms? : Option Nat)
    (h : cfg.block_size < skip) :
    stream_handler_after_parse cfg backend cl mid offset skip ms?
      = errOutcome 500 false := by
  simp [stream_handler_after_parse, h]

/-- Witness for C5's amended claim at `block_size = 100`, `skip = 101`. -/
theorem skip_over_block_500_witness :
    stream_handler_after_parse ⟨100, 0⟩ sampleBackend neverClosing 7 0 101 none
      = errOutcome 500 false :=
  skip_over_block_500 ⟨100, 0⟩ sampleBackend neverClosing 7 0 101 none (by decide)

set_option maxRecDepth 16384

/-- Counterexample for C4: for `Range: bytes=150-649` against a 1000-byte
document the handler writes 500 bytes but emits `Content-Length: 1000` (the
full document size), so the header differs from the bytes actually
returned. -/
theorem content_length_mismatch :
    (stream_handler ⟨100, 0⟩ {serialize_token 7 9} sampleBackend neverClosing
        "7" "9" (some ⟨150, some 649, true⟩)).contentLength = some "1000"
      ∧ (stream_handler ⟨100, 0⟩ {serialize_token 7 9} sampleBackend neverClosing
        "7" "9" (some ⟨150, some 649, true⟩)).written.length = 500
      ∧ some (toString (stream_handler ⟨100, 0⟩ {serialize_token 7 9} sampleBackend
          neverClosing "7" "9" (some ⟨150, some 649, true⟩)).written.length)
        ≠ (stream_handler ⟨100, 0⟩ {serialize_token 7 9} sampleBackend neverClosing
          "7" "9" (some ⟨150, some 649, true⟩)).contentLength := by
  have h1 : (stream_handler ⟨100, 0⟩ {serialize_token 7 9} sampleBackend neverClosing
      "7" "9" (some ⟨150, some 649, true⟩)).contentLength = some "1000" := rfl
  have h2 : (stream_handler ⟨100, 0⟩ {serialize_token 7 9} sampleBackend neverClosing
      "7" "9" (some ⟨150, some 649, true⟩)).written.length = 500 := by rfl
  refine ⟨h1, h2, ?_⟩
  rw [h1, h2]
  decide

/-- Claim C4 (amended): on every successful stream response the emitted
`Content-Length` equals the full document size (`str(size)`), not the number
of bytes actually returned; the two agree exactly when the response covers
the whole document — in particular on a no-Range request the loop writes
exactly `size` bytes, matching the header. -/
theorem content_length_full_size :
    (∀ (cfg : Config) (backend : Nat → Option TgMessage) (cl : Nat → Bool)
        (mid offset skip : Nat) (ms? : Option Nat) (msg : TgMessage)
        (media : MessageMedia) (doc : Document),
        backend mid = some msg → msg.media = some media →
        media.document = some doc → skip ≤ cfg.block_size →
        offset + skip ≤ doc.size → ms?.getD doc.size ≤ doc.size →
        (stream_handler_after_parse cfg backend cl mid offset skip
            ms?).contentLength = some (toString doc.size))
      ∧ (∀ (cfg : Config) (backend : Nat → Option TgMessage) (mid : Nat)
          (msg : TgMessage) (media : MessageMedia) (doc : Document),
          backend mid = some msg → msg.media = some media →
          media.document = some doc → 0 < cfg.block_size →
          doc.size = msg.content.length →
          (stream_handler_after_parse cfg backend neverClosing mid 0 0
              none).written.length = doc.size) := by
  constructor
  · intro cfg backend cl mid offset skip ms? msg media doc hmsg hmedia hdoc h1 h2 h3
    rw [after_parse_success hmsg hmedia hdoc h1 h2 h3]
    rfl
  · intro cfg backend mid msg media doc hmsg hmedia hdoc hbs hsize
    rw [after_parse_success hmsg hmedia hdoc (Nat.zero_le _) (by omega) (by simp)]
    simp only [stream_success, Option.getD_none]
    rw [streamGo_eq]
    simp only [List.nil_append]
    rw [writtenOf_streamTrace hbs (doc.size + 1) 0 0 0 doc.size (by omega)
      (Nat.zero_le _) (by omega) (by omega)]
    simp only [Nat.add_zero, Nat.zero_add, Nat.sub_zero, List.length_take,
      List.length_drop]
    omega

/-- Witness for C4's amended claim: `Content-Length` is 1000 for the 150-649
range request, and the no-Range request delivers all 1000 bytes. -/
theorem content_length_full_size_witness :
    (stream_handler_after_parse ⟨100, 0⟩ sampleBackend neverClosing 7 100 50
        (some 650)).contentLength = some "1000"
      ∧ (stream_handler_after_parse ⟨100, 0⟩ sampleBackend neverClosing 7 0 0
        none).written.length = 1000 := by
  constructor
  · exact content_length_full_size.1 ⟨100, 0⟩ sampleBackend neverClosing 7 100 50
      (some 650) ⟨some ⟨some ⟨1000, 3⟩⟩, 11, List.range 1000⟩ ⟨some ⟨1000, 3⟩⟩
      ⟨1000, 3⟩ rfl rfl rfl (by decide) (by decide) (by decide)
  · exact content_length_full_size.2 ⟨100, 0⟩ sampleBackend 7
      ⟨some ⟨some ⟨1000, 3⟩⟩, 11, List.range 1000⟩ ⟨some ⟨1000, 3⟩⟩ ⟨1000, 3⟩
      rfl rfl rfl (by decide) (by simp)

/-- Claim C9: on the response-building step the status is 206 exactly when
the response starts after byte 0 or ends before the content end, and 200
otherwise; and with no Range header the gateway streams from offset 0 with
no skip up to the content size, answering 200 with the full content. -/
theorem status_206_iff :
    (∀ (cfg : Config) (backend : Nat → Option TgMessage) (cl : Nat → Bool)
        (mid offset skip : Nat) (ms? : Option Nat) (msg : TgMessage)
        (media : MessageMedia) (doc : Document),
        backend mid = some msg → msg.media = some media →
        media.document = some doc → skip ≤ cfg.block_size →
        offset + skip ≤ doc.size → ms?.getD doc.size ≤ doc.size →
        ((stream_handler_after_parse cfg backend cl mid offset skip ms?).status
            = 206
          ↔ (0 < offset + skip ∨ ms?.getD doc.size ≠ doc.size)))
      ∧ (∀ (cfg : Config) (tokens : Finset Nat) (backend : Nat → Option TgMessage)
          (mstr tstr : String) (msg : TgMessage) (media : MessageMedia)
          (doc : Document),
          isDigits mstr = true → isDigits tstr = true →
          serialize_token (toNatDigits mstr) (toNatDigits tstr) ∈ tokens →
          backend (toNatDigits mstr) = some msg → msg.media = some media →
          media.document = some doc → 0 < cfg.block_size →
          doc.size = msg.content.length →
          (stream_handler cfg tokens backend neverClosing mstr tstr none).status
              = 200
            ∧ (stream_handler cfg tokens backend neverClosing mstr tstr
                none).written = msg.content) := by
  constructor
  · intro cfg backend cl mid offset skip ms? msg media doc hmsg hmedia hdoc h1 h2 h3
    rw [after_parse_success hmsg hmedia hdoc h1 h2 h3]
    show (if offset + skip ≠ 0 ∨ ms?.getD doc.size ≠ doc.size then 206 else 200)
        = 206 ↔ _
    split
    · rename_i h
      constructor
      · intro _
        rcases h with h | h
        · exact Or.inl (Nat.pos_of_ne_zero h)
        · exact Or.inr h
      · intro _
        rfl
    · rename_i h
      push_neg at h
      constructor
      · intro hx
        omega
      · intro hx
        rcases hx with hx | hx
        · omega
        · exact absurd h.2 hx
  · intro cfg tokens backend mstr tstr msg media doc hm ht hauth hmsg hmedia hdoc
      hbs hsize
    have hunf : stream_handler cfg tokens backend neverClosing mstr tstr none
        = stream_handler_after_parse cfg backend neverClosing
            (toNatDigits mstr) 0 0 none := by
      simp only [stream_handler, hm, ht]
      rw [if_neg (by simp), if_neg (by simp), if_neg (not_not_intro hauth)]
    rw [hunf, after_parse_success hmsg hmedia hdoc (Nat.zero_le _) (by omega)
      (by simp)]
    constructor
    · show (if 0 + 0 ≠ 0 ∨ (none : Option Nat).getD doc.size ≠ doc.size
          then 206 else 200) = (200 : Nat)
      simp
    · simp only [stream_success, Option.getD_none]
      rw [streamGo_eq]
      simp only [List.nil_append]
      rw [writtenOf_streamTrace hbs (doc.size + 1) 0 0 0 doc.size (by omega)
        (Nat.zero_le _) (by omega) (by omega)]
      simp [hsize]

/-- Witness for C9 at the sample backend: the 150-649 range is a 206, and a
no-Range request is a 200 returning the document byte for byte. -/
theorem status_206_iff_witness :
    ((stream_handler_after_parse ⟨100, 0⟩ sampleBackend neverClosing 7 100 50
        (some 650)).status = 206 ↔ (0 < (100 : Nat) + 50 ∨
          ((some 650 : Option Nat)).getD 1000 ≠ 1000))
      ∧ (stream_handler ⟨100, 0⟩ {serialize_token 7 9} sampleBackend
          neverClosing "7" "9" none).status = 200
      ∧ (stream_handler ⟨100, 0⟩ {serialize_token 7 9} sampleBackend
          neverClosing "7" "9" none).written = List.range 1000 := by
  refine ⟨?_, ?_⟩
  · exact status_206_iff.1 ⟨100, 0⟩ sampleBackend neverClosing 7 100 50
      (some 650) ⟨some ⟨some ⟨1000, 3⟩⟩, 11, List.range 1000⟩ ⟨some ⟨1000, 3⟩⟩
      ⟨1000, 3⟩ rfl rfl rfl (by decide) (by decide) (by decide)
  · exact status_206_iff.2 ⟨100, 0⟩ {serialize_token 7 9} sampleBackend "7" "9"
      ⟨some ⟨some ⟨1000, 3⟩⟩, 11, List.range 1000⟩ ⟨some ⟨1000, 3⟩⟩ ⟨1000, 3⟩
      (by decide) (by decide) (by decide) rfl rfl rfl (by decide) (by simp)

/-- Claim C1: for an authorized request with `Range: bytes=S-E` inside the
document, the loop writes exactly the bytes from `fetch_offset + skip = S`
up to but excluding `exclusive_end = E + 1`, and the recorded block offsets
are strictly increasing (blocks go out in strictly increasing offset
order). -/
theorem stream_writes_exact_range
    (cfg : Config) (tokens : Finset Nat) (backend : Nat → Option TgMessage)
    (mstr tstr : String) (S E : Nat) (msg : TgMessage) (media : MessageMedia)
    (doc : Document)
    (hbs : 0 < cfg.block_size)
    (hm : isDigits mstr = true) (ht : isDigits tstr = true)
    (hauth : serialize_token (toNatDigits mstr) (toNatDigits tstr) ∈ tokens)
    (hmsg : backend (toNatDigits mstr) = some msg)
    (hmedia : msg.media = some media) (hdoc : media.document = some doc)
    (hsize : doc.size = msg.content.length)
    (hSE : S ≤ E) (hE : E + 1 ≤ doc.size) :
    (stream_handler cfg tokens backend neverClosing mstr tstr
        (some ⟨S, some E, true⟩)).written
        = (msg.content.drop S).take (E + 1 - S)
      ∧ List.Chain' (fun a b => a < b)
          (stream_handler cfg tokens backend neverClosing mstr tstr
            (some ⟨S, some E, true⟩)).downloaded := by
  have hmod : S % cfg.block_size < cfg.block_size := Nat.mod_lt _ hbs
  have hdm : S / cfg.block_size * cfg.block_size + S % cfg.block_size = S :=
    Nat.div_add_mod' S cfg.block_size
  have hunf : stream_handler cfg tokens backend neverClosing mstr tstr
        (some ⟨S, some E, true⟩)
      = stream_handler_after_parse cfg backend neverClosing
          (toNatDigits mstr) (S / cfg.block_size * cfg.block_size)
          (S % cfg.block_size) (some (E + 1)) := by
    simp only [stream_handler, hm, ht]
    rw [if_neg (by simp), if_neg (by simp), if_neg (not_not_intro hauth)]
    simp [parse_http_range]
  rw [hunf, after_parse_success hmsg hmedia hdoc (le_of_lt hmod) (by omega)
    (by simpa using hE)]
  simp only [Option.getD_some]
  constructor
  · simp only [stream_success]
    rw [streamGo_eq]
    simp only [List.nil_append]
    rw [writtenOf_streamTrace hbs (E + 1 + 1) 0 _ _ (E + 1) (by omega)
      (le_of_lt hmod) (by omega) (by omega)]
    rw [hdm]
  · simp only [stream_success]
    rw [streamGo_eq]
    simp only [List.nil_append]
    rw [List.chain'_map]
    exact streamTrace_chain' hbs _ _ _ _ _ (by omega)

/-- Witness for C1: `content_size = 1000`, `block_size = 100`,
`Range: bytes=150-649` writes exactly the 500 bytes 150..649. -/
theorem stream_writes_exact_range_witness :
    (stream_handler ⟨100, 0⟩ {serialize_token 7 9} sampleBackend neverClosing
        "7" "9" (some ⟨150, some 649, true⟩)).written
        = ((List.range 1000).drop 150).take 500
      ∧ ((stream_handler ⟨100, 0⟩ {serialize_token 7 9} sampleBackend
          neverClosing "7" "9" (some ⟨150, some 649, true⟩)).written).length
        = 500 := by
  have h := stream_writes_exact_range ⟨100, 0⟩ {serialize_token 7 9}
    sampleBackend "7" "9" 150 649 ⟨some ⟨some ⟨1000, 3⟩⟩, 11, List.range 1000⟩
    ⟨some ⟨1000, 3⟩⟩ ⟨1000, 3⟩ (by decide) (by decide) (by decide) (by decide)
    rfl rfl rfl (by simp) (by decide) (by decide)
  constructor
  · simpa using h.1
  · rw [h.1]
    simp only [List.length_take, List.length_drop, List.length_range]
    omega

/-- Claim C10: writes and downloaded-block records happen pairwise per
iteration — the recorded offsets are exactly the first components of the
`(offset, block)` trace whose blocks are the written bytes, in order; a
transport gone or closing from iteration `k` on stops the loop there,
neither writing nor recording that iteration's block; and the recorded
offsets are strictly increasing, so the downloaded-block set holds exactly
the offsets of blocks actually delivered. -/
theorem downloaded_iff_delivered (content : List Nat) (bs : Nat)
    (cl : Nat → Bool) (k fuel iter offset skip ms : Nat) (hbs : 0 < bs)
    (hlen : ms ≤ content.length) :
    (streamGo content bs cl fuel iter offset skip ms [] []
        = (writtenOf (streamTrace content bs cl fuel iter offset skip ms),
          (streamTrace content bs cl fuel iter offset skip ms).map Prod.fst))
      ∧ (streamTrace content bs (closesAt k) fuel iter offset skip ms
          = (streamTrace content bs neverClosing fuel iter offset skip
              ms).take (k - iter))
      ∧ List.Chain' (fun a b => a < b)
          ((streamTrace content bs cl fuel iter offset skip ms).map Prod.fst) := by
  refine ⟨?_, streamTrace_closesAt k fuel iter offset skip ms, ?_⟩
  · rw [streamGo_eq]
    simp
  · rw [List.chain'_map]
    exact streamTrace_chain' hbs fuel iter offset skip ms hlen

/-- Witness for C10: a 300-byte document in 100-byte blocks with the
transport closing at iteration 2 delivers and records exactly the first two
blocks. -/
theorem downloaded_iff_delivered_witness :
    (streamGo (List.range 300) 100 (closesAt 2) 301 0 0 0 300 [] []
        = (writtenOf (streamTrace (List.range 300) 100 (closesAt 2) 301 0 0 0 300),
          (streamTrace (List.range 300) 100 (closesAt 2) 301 0 0 0 300).map
            Prod.fst))
      ∧ (streamTrace (List.range 300) 100 (closesAt 2) 301 0 0 0 300
          = (streamTrace (List.range 300) 100 neverClosing 301 0 0 0 300).take 2)
      ∧ List.Chain' (fun a b => a < b)
          ((streamTrace (List.range 300) 100 (closesAt 2) 301 0 0 0 300).map
            Prod.fst) := by
  have h := downloaded_iff_delivered (List.range 300) 100 (closesAt 2) 2 301 0
    0 0 300 (by decide) (by simp)
  exact ⟨h.1, by simpa using h.2.1, h.2.2⟩

lemma lookupBlocks_eraseBlocks_self {m : List (Nat × Finset Nat)} {k : Nat} :
    lookupBlocks (eraseBlocks m k) k = none := by
  rw [lookupBlocks]
  have h : (eraseBlocks m k).find? (fun p => decide (p.1 = k)) = none := by
    rw [List.find?_eq_none]
    intro p hp
    have hmem := (List.mem_filter.1 hp).2
    simp at hmem ⊢
    exact hmem
  rw [h]
  rfl

/-- Claim C3: when the idle-timeout callback fires for a token present in
all three gateway maps, it removes the token from the authorized set,
deletes the token's downloaded-block set and Debouncer entry, and notifies
the originating chat with the remaining percentage
`(1 - distinct_downloaded_blocks / total_blocks) * 100`. -/
theorem timeout_reaps_and_notifies (cfg : Config) (st : GatewayState)
    (mid cid tok size : Nat) (dl : Finset Nat)
    (hdl : lookupBlocks st.downloaded_blocks tok = some dl)
    (hb : size / cfg.block_size ≠ 0)
    (htok : tok ∈ st.tokens) (hdb : tok ∈ st.stream_debounce) :
    timeout_handler cfg st mid cid tok size
        = some ({ tokens := st.tokens.erase tok,
                  downloaded_blocks := eraseBlocks st.downloaded_blocks tok,
                  stream_debounce :=
                    st.stream_debounce.filter fun t => decide (t ≠ tok) },
                ⟨mid, cid,
                  (1 - (dl.card : ℚ) / ((size / cfg.block_size : Nat) : ℚ))
                    * 100⟩)
      ∧ lookupBlocks (eraseBlocks st.downloaded_blocks tok) tok = none
      ∧ tok ∉ st.stream_debounce.filter fun t => decide (t ≠ tok) := by
  refine ⟨?_, lookupBlocks_eraseBlocks_self, ?_⟩
  · simp only [timeout_handler, hdl]
    rw [if_neg hb, if_neg (not_not_intro htok), if_neg (not_not_intro hdb)]
    have hq : ((size / cfg.block_size : Nat) : ℚ) ≠ 0 := Nat.cast_ne_zero.2 hb
    congr 1
    congr 1
    congr 1
    field_simp
  · intro hmem
    have := (List.mem_filter.1 hmem).2
    simp at this

/-- Witness for C3: 3 of 10 blocks downloaded at timeout yields a
notification carrying 70% remaining, with all three entries discarded. -/
theorem timeout_reaps_and_notifies_witness :
    timeout_handler ⟨100, 0⟩ ⟨{5}, [(5, ({0, 100, 200} : Finset Nat))], [5]⟩
        1 2 5 1000
      = some (⟨({5} : Finset Nat).erase 5,
              eraseBlocks [(5, ({0, 100, 200} : Finset Nat))] 5,
              [5].filter fun t => decide (t ≠ 5)⟩,
             ⟨1, 2, 70⟩) := by
  have h := timeout_reaps_and_notifies ⟨100, 0⟩
    ⟨{5}, [(5, ({0, 100, 200} : Finset Nat))], [5]⟩ 1 2 5 1000 {0, 100, 200}
    rfl (by decide) (by decide) (by decide)
  rw [h.1]
  have hc : (({0, 100, 200} : Finset Nat).card : ℚ) = 3 := by
    rw [show ({0, 100, 200} : Finset Nat).card = 3 from by decide]
    norm_num
  rw [hc]
  norm_num

end SmartTv

namespace Castbot

lemma digitChar_isDigit {k : Nat} (h : k < 10) :
    (Nat.digitChar k).isDigit = true := by
  interval_cases k <;> decide

lemma toDigitsCore_digits :
    ∀ (f n : Nat) (l : List Char), (∀ c ∈ l, c.isDigit = true) →
      ∀ c ∈ Nat.toDigitsCore 10 f n l, c.isDigit = true := by
  intro f
  induction f with
  | zero => intro n l hl c hc; exact hl c hc
  | succ f ih =>
    intro n l hl c hc
    have hl' : ∀ c ∈ Nat.digitChar (n % 10) :: l, c.isDigit = true := by
      intro c' hc'
      rcases List.mem_cons.1 hc' with h | h
      · rw [h]
        exact digitChar_isDigit (Nat.mod_lt _ (by norm_num))
      · exact hl c' h
    by_cases h0 : n / 10 = 0
    · simp only [Nat.toDigitsCore, h0, if_pos] at hc
      exact hl' c hc
    · simp only [Nat.toDigitsCore, h0, if_neg, if_false] at hc
      exact ih (n / 10) _ hl' c hc

lemma repr_digits (n : Nat) : ∀ c ∈ (toString n).toList, c.isDigit = true := by
  intro c hc
  have he : (toString n).toList = Nat.toDigitsCore 10 (n + 1) n [] := rfl
  rw [he] at hc
  exact toDigitsCore_digits (n + 1) n [] (by simp) c hc

lemma afterFirst_controller (x : List Char) :
    afterFirst "on device ".toList ("Controller for file <code>".toList ++ x)
      = afterFirst "on device ".toList x := rfl

lemma headMatch_digit {c : Char} (hc : c.isDigit = true) (ts : List Char) :
    headMatch "on device ".toList (c :: ts) = false := by
  have ho : ('o' == c) = false := by
    cases hq : ('o' == c) with
    | false => rfl
    | true =>
      cases eq_of_beq hq
      exact absurd hc (by decide)
  have hstep : headMatch "on device ".toList (c :: ts)
      = (('o' == c) && headMatch "n device ".toList ts) := rfl
  rw [hstep, ho, Bool.false_and]

lemma afterFirst_digits {ds : List Char} (hds : ∀ c ∈ ds, c.isDigit = true)
    (x : List Char) :
    afterFirst "on device ".toList (ds ++ x)
      = afterFirst "on device ".toList x := by
  induction ds with
  | nil => rfl
  | cons c cs ih =>
    have hm := headMatch_digit (hds c (by simp)) (cs ++ x)
    rw [List.cons_append]
    rw [show afterFirst "on device ".toList (c :: (cs ++ x))
        = if headMatch "on device ".toList (c :: (cs ++ x)) then
            some (List.drop ("on device ".toList).length (c :: (cs ++ x)))
          else afterFirst "on device ".toList (cs ++ x) from rfl]
    rw [hm]
    simp only [Bool.false_eq_true, if_false]
    exact ih fun c' hc' => hds c' (List.mem_cons_of_mem _ hc')

lemma afterFirst_tail (x : List Char) :
    afterFirst "on device ".toList
      ("</code> ".toList ++ ("on device ".toList ++ x)) = some x := rfl

/-- Counterexample for C6: the device name parsed back out of the rendered
control text is the name wrapped in `<code>` markup, not the bare name, so
the parser is not a left inverse of the renderer. -/
theorem device_str_roundtrip_counterexample :
    parse_device_str (stopped_text 1 (some "TV".toList))
        = some "<code>TV</code>".toList
      ∧ parse_device_str (stopped_text 1 (some "TV".toList))
        ≠ some "TV".toList := by
  constructor
  · rfl
  · decide

/-- Claim C6 (amended): parsing the rendered control text with the
`"on device ([^,]*)"` pattern recovers the bound device's display name
HTML-escaped and wrapped in `<code>…</code>` markup (the bare name only
after that markup is stripped, as the chat backend does when storing the
message text), provided the escaped name contains no comma. -/
theorem parse_device_str_of_stopped_text (vid : Nat) (name : List Char)
    (hnc : ',' ∉ html_escape name) :
    parse_device_str (stopped_text vid (some name))
      = some ("<code>".toList ++ (html_escape name ++ "</code>".toList)) := by
  have hT : stopped_text vid (some name)
      = "Controller for file <code>".toList
        ++ ((toString vid).toList
          ++ ("</code> ".toList
            ++ ("on device ".toList
              ++ ("<code>".toList
                ++ (html_escape name ++ "</code>".toList))))) := by
    simp only [stopped_text, gen_message_str, gen_device_str, String.toList,
      String.data_append, List.append_assoc]
    rfl
  have hall : ∀ x ∈ "<code>".toList ++ (html_escape name ++ "</code>".toList),
      (x != ',') = true := by
    intro x hx
    rcases List.mem_append.1 hx with h | h
    · have hne : x ≠ ',' := (by decide : ∀ y ∈ "<code>".toList, y ≠ ',') x h
      simpa [bne_iff_ne] using hne
    · rcases List.mem_append.1 h with h2 | h2
      · have hne : x ≠ ',' := fun heq => hnc (heq ▸ h2)
        simpa [bne_iff_ne] using hne
      · have hne : x ≠ ',' :=
          (by decide : ∀ y ∈ "</code>".toList, y ≠ ',') x h2
        simpa [bne_iff_ne] using hne
  rw [parse_device_str, hT, afterFirst_controller,
    afterFirst_digits (repr_digits vid), afterFirst_tail]
  simp only [Option.map_some']
  rw [List.takeWhile_eq_self_iff.2 hall]

/-- Witness for C6's amended claim at device name `TV`. -/
theorem parse_device_str_of_stopped_text_witness :
    parse_device_str (stopped_text 1 (some "TV".toList))
      = some ("<code>".toList ++ (html_escape "TV".toList ++ "</code>".toList)) :=
  parse_device_str_of_stopped_text 1 "TV".toList (by decide)

lemma create_or_update_sets (st : ControlState) (text : List Char)
    (buttons : List (List Char)) :
    ((create_or_update_control_message st text buttons).1).control_message
        = some (text, buttons)
      ∧ (create_or_update_control_message st text buttons).2 = false := by
  cases hc : st.control_message with
  | none => simp [create_or_update_control_message, hc]
  | some cur =>
    by_cases h : cur = (text, buttons) <;>
      simp [create_or_update_control_message, hc, edit_text, h]

/-- Claim C7: `stop()` never propagates a device-side stop failure (the
error event is merely logged), always renders the stopped control surface,
and raises the no-device error exactly when no device is bound — with the
control surface already updated when it does. -/
theorem stop_contract (device : Option DeviceModel) (st : ControlState)
    (vid : Nat) :
    ((PlayingVideo_stop device st vid).2.2 = some PvError.noDeviceException
        ↔ device = none)
      ∧ (∀ d, device = some d →
          (PlayingVideo_stop device st vid).2.2 = none)
      ∧ StopEvent.rendered_stopped
            (stopped_text vid (device.map DeviceModel.name)) stopped_buttons
          ∈ (PlayingVideo_stop device st vid).1
      ∧ ((PlayingVideo_stop device st vid).2.1).control_message
          = some (stopped_text vid (device.map DeviceModel.name),
              stopped_buttons)
      ∧ (∀ d, device = some d → d.stop_fails = true →
          StopEvent.device_stop_failed_logged
            ∈ (PlayingVideo_stop device st vid).1) := by
  cases device with
  | none =>
    refine ⟨by simp [PlayingVideo_stop], by simp, ?_, ?_, by simp⟩
    · simp [PlayingVideo_stop]
    · simp only [PlayingVideo_stop]
      exact (create_or_update_sets st _ _).1
  | some d =>
    refine ⟨by simp [PlayingVideo_stop], by simp [PlayingVideo_stop], ?_, ?_, ?_⟩
    · by_cases hf : d.stop_fails <;> simp [PlayingVideo_stop, hf]
    · simp only [PlayingVideo_stop]
      exact (create_or_update_sets st _ _).1
    · intro d' hd' hf
      cases Option.some.inj hd'
      simp [PlayingVideo_stop, hf]

/-- Witness for C7: a bound device whose stop fails is logged and the call
still succeeds; with no device bound the no-device error is raised. -/
theorem stop_contract_witness :
    (PlayingVideo_stop (some ⟨"TV".toList, true⟩) ⟨none⟩ 1).2.2 = none
      ∧ StopEvent.device_stop_failed_logged
          ∈ (PlayingVideo_stop (some ⟨"TV".toList, true⟩) ⟨none⟩ 1).1
      ∧ (PlayingVideo_stop (none : Option DeviceModel) ⟨none⟩ 1).2.2
          = some PvError.noDeviceException :=
  ⟨(stop_contract (some ⟨"TV".toList, true⟩) ⟨none⟩ 1).2.1 _ rfl,
   (stop_contract (some ⟨"TV".toList, true⟩) ⟨none⟩ 1).2.2.2.2 _ rfl rfl,
   (stop_contract none ⟨none⟩ 1).1.2 rfl⟩

/-- Claim C8: re-rendering the control surface with identical text and
buttons never raises, however many times it is invoked in sequence: the
backend's not-modified condition is caught and treated as a successful
no-op, and the rendered content stays put. -/
theorem rerender_identical_never_raises :
    ∀ (text : List Char) (buttons : List (List Char)) (n : Nat)
      (st : ControlState),
      (renderN text buttons n st).2 = false
        ∧ (1 ≤ n →
          ((renderN text buttons n st).1).control_message
            = some (text, buttons)) := by
  intro text buttons n
  induction n with
  | zero => exact fun st => ⟨rfl, fun h => absurd h (by decide)⟩
  | succ n ih =>
    intro st
    constructor
    · show ((create_or_update_control_message st text buttons).2
          || (renderN text buttons n
              (create_or_update_control_message st text buttons).1).2) = false
      rw [(create_or_update_sets st text buttons).2,
        (ih ((create_or_update_control_message st text buttons).1)).1]
      rfl
    · intro _
      show ((renderN text buttons n
          (create_or_update_control_message st text buttons).1).1).control_message
        = some (text, buttons)
      cases n with
      | zero => exact (create_or_update_sets st text buttons).1
      | succ m =>
        exact (ih ((create_or_update_control_message st text buttons).1)).2
          (by omega)

/-- Witness for C8: three consecutive identical renders raise nothing and
leave the rendered content in place. -/
theorem rerender_identical_never_raises_witness :
    (renderN "Playing".toList ["STOP".toList] 3 ⟨none⟩).2 = false
      ∧ ((renderN "Playing".toList ["STOP".toList] 3 ⟨none⟩).1).control_message
        = some ("Playing".toList, ["STOP".toList]) :=
  ⟨(rerender_identical_never_raises "Playing".toList ["STOP".toList] 3 ⟨none⟩).1,
   (rerender_identical_never_raises "Playing".toList ["STOP".toList] 3
      ⟨none⟩).2 (by decide)⟩

end Castbot
